import Mathlib

/-!
Verification of the filtering-log, filter-storage and rule-limit accounting
components of the AdGuard browser extension, as a shallow embedding in Lean.

The embedding follows the TypeScript sources:
  * `FilteringLogApi` (filtering-log api module): per-tab bounded event log,
    rule-text resolution with an in-memory cache, log-viewer open/close
    lifecycle, tab bookkeeping.
  * `FiltersStorage` (background/storages/filters.ts): persistent storage of
    filter lists, conversion maps and original user rules.
  * `ConfigurationResultService` (services/configuration-result/mv3):
    rule-limit accounting over an engine configuration result.

JavaScript `Map` objects and string-keyed records are modelled as association
lists that keep insertion order, with `mapSet` overwriting in place, exactly
as `Map.prototype.set` does.  JavaScript truthiness of numbers and strings
(`0`, `""` and `undefined` are falsy) is modelled explicitly at each use site.
External collaborators that are not part of this repository (the
`@adguard/tswebextension` engine helpers, the translator, the settings
storage) are abstracted as explicit dependency records.
-/

/-- Association-list lookup, modelling `Map.prototype.get` /
JavaScript record indexing: the first entry with the given key wins. -/
def mapGet {κ α : Type} [DecidableEq κ] : List (κ × α) → κ → Option α
  | [], _ => none
  | (k, v) :: rest, key => if k = key then some v else mapGet rest key

/-- Association-list update, modelling `Map.prototype.set` / record property
assignment: overwrites the existing entry in place, else appends. -/
def mapSet {κ α : Type} [DecidableEq κ] : List (κ × α) → κ → α → List (κ × α)
  | [], key, value => [(key, value)]
  | (k, v) :: rest, key, value =>
    if k = key then (k, value) :: rest else (k, v) :: mapSet rest key value

/-- Association-list removal, modelling `Map.prototype.delete` / key removal
from a storage backend: removes the first entry with the given key. -/
def mapDelete {κ α : Type} [DecidableEq κ] : List (κ × α) → κ → List (κ × α)
  | [], _ => []
  | (k, v) :: rest, key => if k = key then rest else (k, v) :: mapDelete rest key

theorem mapGet_mapSet_self {κ α : Type} [DecidableEq κ] (l : List (κ × α))
    (k : κ) (v : α) : mapGet (mapSet l k v) k = some v := by
  induction l with
  | nil => simp [mapGet, mapSet]
  | cons hd tl ih =>
    obtain ⟨k', v'⟩ := hd
    by_cases h : k' = k <;> simp [mapGet, mapSet, h, ih]

theorem mapGet_mapSet_ne {κ α : Type} [DecidableEq κ] (l : List (κ × α))
    (k key : κ) (v : α) (h : k ≠ key) :
    mapGet (mapSet l k v) key = mapGet l key := by
  induction l with
  | nil => simp [mapGet, mapSet, h]
  | cons hd tl ih =>
    obtain ⟨k', v'⟩ := hd
    by_cases hk : k' = k
    · subst hk; simp [mapGet, mapSet, h]
    · simp [mapGet, mapSet, hk, ih]

theorem mapGet_mapDelete_ne {κ α : Type} [DecidableEq κ] (l : List (κ × α))
    (k key : κ) (h : k ≠ key) :
    mapGet (mapDelete l k) key = mapGet l key := by
  induction l with
  | nil => simp [mapDelete]
  | cons hd tl ih =>
    obtain ⟨k', v'⟩ := hd
    by_cases hk : k' = k
    · subst hk; simp [mapGet, mapDelete, h]
    · simp [mapGet, mapDelete, hk, ih]

theorem mapGet_eq_none_of_not_mem {κ α : Type} [DecidableEq κ]
    (l : List (κ × α)) (k : κ) (h : k ∉ l.map Prod.fst) :
    mapGet l k = none := by
  induction l with
  | nil => simp [mapGet]
  | cons hd tl ih =>
    obtain ⟨k', v'⟩ := hd
    simp only [List.map_cons, List.mem_cons, not_or] at h
    have hk : ¬k' = k := fun he => h.1 he.symm
    simp [mapGet, hk, ih h.2]

theorem mapGet_mapDelete_self {κ α : Type} [DecidableEq κ] (l : List (κ × α))
    (k : κ) (hnd : (l.map Prod.fst).Nodup) :
    mapGet (mapDelete l k) k = none := by
  induction l with
  | nil => simp [mapGet, mapDelete]
  | cons hd tl ih =>
    obtain ⟨k', v'⟩ := hd
    simp only [List.map_cons, List.nodup_cons] at hnd
    by_cases hk : k' = k
    · subst hk
      simp only [mapDelete, if_pos rfl]
      exact mapGet_eq_none_of_not_mem tl k' hnd.1
    · simp [mapGet, mapDelete, hk, ih hnd.2]

theorem mapGet_isSome_mapSet {κ α : Type} [DecidableEq κ] (l : List (κ × α))
    (k key : κ) (v : α) (h : (mapGet l key).isSome = true) :
    (mapGet (mapSet l k v) key).isSome = true := by
  by_cases hk : k = key
  · subst hk; simp [mapGet_mapSet_self]
  · rwa [mapGet_mapSet_ne l k key v hk]

theorem mapGet_map_values {κ α β : Type} [DecidableEq κ]
    (l : List (κ × α)) (f : α → β) (key : κ) :
    mapGet (l.map (fun p => (p.1, f p.2))) key = (mapGet l key).map f := by
  induction l with
  | nil => simp [mapGet]
  | cons hd tl ih =>
    obtain ⟨k', v'⟩ := hd
    by_cases h : k' = key <;> simp [mapGet, h, ih]

/-- The reserved background tab id, imported by the source from
`@adguard/tswebextension` (external dependency; its published value is `-1`).
None of the proofs depend on the concrete value, only on it being the id the
guards compare against. -/
def BACKGROUND_TAB_ID : Int := -1

/-- Filtering-log event, restricted to the fields the embedded operations
inspect (`eventId` for `updateEventData`, the cookie triple for
`isExistingCookieEvent`).  Fields are optional because the corresponding
TypeScript fields may be `undefined` on events of other kinds. -/
structure FilteringLogEvent where
  eventId : Option String
  frameDomain : Option String
  cookieName : Option String
  cookieValue : Option String
deriving DecidableEq

/-- Per-tab entry of the filtering log (`FilteringLogTabInfo`). -/
structure FilteringLogTabInfo where
  tabId : Int
  title : String
  isExtensionTab : Bool
  filteringEvents : List FilteringLogEvent
deriving DecidableEq

/-- A preprocessed filter list as cached by the filtering log and returned by
`FiltersStorage.getAllFilterData`.  `conversionMap` and `sourceMap` are
optional: pre-source-map-era records lack them. -/
structure PreprocessedFilterList where
  rawFilterList : String
  filterList : List (List Nat)
  conversionMap : Option (List (Int × String))
  sourceMap : Option (List (Int × Int))
deriving DecidableEq

/-- Result record of `FilteringLogApi.getRuleText`.  `appliedRuleText := none`
models both an absent property and a property set to `undefined`. -/
structure RuleText where
  ruleText : String
  appliedRuleText : Option String
deriving DecidableEq

/-- One `listeners.notifyListeners` call, recorded in emission order. -/
inductive LogNotification where
  | tabAdded (info : FilteringLogTabInfo)
  | tabUpdate (info : FilteringLogTabInfo)
  | tabClose (info : FilteringLogTabInfo)
  | tabReset (info : FilteringLogTabInfo)
  | logEventAdded (info : FilteringLogTabInfo) (event : FilteringLogEvent)
deriving DecidableEq

/-- A browser tab as delivered by the webextension API: every field may be
`undefined`. -/
structure BrowserTab where
  id : Option Int
  title : Option String
  url : Option String
deriving DecidableEq

/-- Mutable state of a `FilteringLogApi` instance.  `emitted` records the
listener notifications fired so far (observer fan-out is synchronous and
in order). `debugScriptlets` and `collectHitStats` mirror the two
engine-side debug flags toggled by the open/close lifecycle. -/
structure FilteringLogState where
  preserveLogEnabled : Bool
  openedFilteringLogsPages : Int
  tabsInfoMap : List (Int × FilteringLogTabInfo)
  filtersCache : List (Nat × PreprocessedFilterList)
  debugScriptlets : Bool
  collectHitStats : Bool
  emitted : List LogNotification
deriving DecidableEq

/-- External collaborators of `FilteringLogApi`, abstracted as functions:
the translator message for the background tab title, the engine helpers
`isExtensionUrl`, `getRuleSourceIndex` and `getRuleSourceText` (all from
`@adguard/tswebextension`), the storage read `FiltersStorage.getAllFilterData`,
and the `DisableCollectHits` user setting. -/
structure FilteringLogDeps where
  backgroundTabTitle : String
  isExtensionUrl : String → Bool
  getAllFilterData : Nat → Option PreprocessedFilterList
  getRuleSourceIndex : Int → List (Int × Int) → Int
  getRuleSourceText : Int → String → Option String
  disableCollectHits : Bool

/-- Capacity constant `FilteringLogApi.REQUESTS_SIZE_PER_TAB`. -/
def REQUESTS_SIZE_PER_TAB : Nat := 1000

/-- Initial state of `FilteringLogApi`: field initializers of the class, in
particular the tabs map pre-seeded with the background tab entry. -/
def initialFilteringLogState (d : FilteringLogDeps) : FilteringLogState where
  preserveLogEnabled := false
  openedFilteringLogsPages := 0
  tabsInfoMap :=
    [(BACKGROUND_TAB_ID,
      { tabId := BACKGROUND_TAB_ID
        title := d.backgroundTabTitle
        isExtensionTab := false
        filteringEvents := [] })]
  filtersCache := []
  debugScriptlets := false
  collectHitStats := false
  emitted := []

/-- Embeds `FilteringLogApi.isOpen`. -/
def FilteringLogApi.isOpen (s : FilteringLogState) : Bool :=
  s.openedFilteringLogsPages > 0

/-- Embeds `FilteringLogApi.getFilteringInfoByTabId`. -/
def FilteringLogApi.getFilteringInfoByTabId (s : FilteringLogState)
    (tabId : Int) : Option FilteringLogTabInfo :=
  mapGet s.tabsInfoMap tabId

/-- Embeds `FilteringLogApi.createTabInfo`.  The first guard is the
JavaScript truthiness check `!id || !url || !title` (`0`, `""` and
`undefined` are falsy); the second rejects the background tab id and
synthetic tabs. -/
def FilteringLogApi.createTabInfo (d : FilteringLogDeps)
    (s : FilteringLogState) (tab : BrowserTab) (isSyntheticTab : Bool) :
    FilteringLogState :=
  match tab.id, tab.title, tab.url with
  | some id, some title, some url =>
    if id = 0 ∨ url = "" ∨ title = "" then s
    else if id = BACKGROUND_TAB_ID ∨ isSyntheticTab then s
    else
      let tabInfo : FilteringLogTabInfo :=
        { tabId := id
          title := title
          isExtensionTab := d.isExtensionUrl url
          filteringEvents := [] }
      { s with
        tabsInfoMap := mapSet s.tabsInfoMap id tabInfo
        emitted := s.emitted ++ [LogNotification.tabAdded tabInfo] }
  | _, _, _ => s

/-- Embeds `FilteringLogApi.updateTabInfo`: same truthiness guard, background
guard, fallback to `createTabInfo` for unknown tabs, in-place update plus
`TabUpdate` notification otherwise. -/
def FilteringLogApi.updateTabInfo (d : FilteringLogDeps)
    (s : FilteringLogState) (tab : BrowserTab) : FilteringLogState :=
  match tab.id, tab.title, tab.url with
  | some id, some title, some url =>
    if id = 0 ∨ url = "" ∨ title = "" then s
    else if id = BACKGROUND_TAB_ID then s
    else
      match mapGet s.tabsInfoMap id with
      | none => FilteringLogApi.createTabInfo d s tab false
      | some tabInfo =>
        let tabInfo' :=
          { tabInfo with title := title, isExtensionTab := d.isExtensionUrl url }
        { s with
          tabsInfoMap := mapSet s.tabsInfoMap id tabInfo'
          emitted := s.emitted ++ [LogNotification.tabUpdate tabInfo'] }
  | _, _, _ => s

/-- Embeds `FilteringLogApi.removeTabInfo`: background guard, `TabClose`
notification when the tab was known, then deletion. -/
def FilteringLogApi.removeTabInfo (s : FilteringLogState) (id : Int) :
    FilteringLogState :=
  if id = BACKGROUND_TAB_ID then s
  else
    let emitted' :=
      match mapGet s.tabsInfoMap id with
      | some tabInfo => s.emitted ++ [LogNotification.tabClose tabInfo]
      | none => s.emitted
    { s with tabsInfoMap := mapDelete s.tabsInfoMap id, emitted := emitted' }

/-- Embeds `FilteringLogApi.addEventData`: no-op for an unknown tab or a
closed log; otherwise push, evict index 1 when the capacity is exceeded,
and notify `LogEventAdded`. -/
def FilteringLogApi.addEventData (s : FilteringLogState) (tabId : Int)
    (data : FilteringLogEvent) : FilteringLogState :=
  match FilteringLogApi.getFilteringInfoByTabId s tabId with
  | none => s
  | some tabInfo =>
    if FilteringLogApi.isOpen s = false then s
    else
      let pushed := tabInfo.filteringEvents ++ [data]
      let events :=
        if pushed.length > REQUESTS_SIZE_PER_TAB then pushed.eraseIdx 1
        else pushed
      let tabInfo' := { tabInfo with filteringEvents := events }
      { s with
        tabsInfoMap := mapSet s.tabsInfoMap tabId tabInfo'
        emitted := s.emitted ++ [LogNotification.logEventAdded tabInfo' data] }

/-- Replaces the first element satisfying `p` by its image under `f`
(models the in-place `Object.assign` on the event found by `find`). -/
def updateFirstMatching {α : Type} (p : α → Bool) (f : α → α) :
    List α → List α
  | [] => []
  | x :: rest => if p x then f x :: rest else x :: updateFirstMatching p f rest

/-- Embeds `FilteringLogApi.updateEventData`.  The `Partial` merge applied by
`Object.assign(event, data)` is abstracted as a function `upd` on events. -/
def FilteringLogApi.updateEventData (s : FilteringLogState) (tabId : Int)
    (eventId : String) (upd : FilteringLogEvent → FilteringLogEvent) :
    FilteringLogState :=
  match FilteringLogApi.getFilteringInfoByTabId s tabId with
  | none => s
  | some tabInfo =>
    if FilteringLogApi.isOpen s = false then s
    else
      match tabInfo.filteringEvents.find? (fun e => e.eventId = some eventId) with
      | none => s
      | some event =>
        let tabInfo' :=
          { tabInfo with
            filteringEvents :=
              updateFirstMatching (fun e => e.eventId == some eventId) upd
                tabInfo.filteringEvents }
        { s with
          tabsInfoMap := mapSet s.tabsInfoMap tabId tabInfo'
          emitted := s.emitted ++ [LogNotification.logEventAdded tabInfo' (upd event)] }

/-- Embeds `FilteringLogApi.clearEventsByTabId`. -/
def FilteringLogApi.clearEventsByTabId (s : FilteringLogState) (tabId : Int)
    (ignorePreserveLog : Bool) : FilteringLogState :=
  let preserveLog := if ignorePreserveLog then false else s.preserveLogEnabled
  match mapGet s.tabsInfoMap tabId with
  | none => s
  | some tabInfo =>
    if preserveLog then s
    else
      let tabInfo' := { tabInfo with filteringEvents := [] }
      { s with
        tabsInfoMap := mapSet s.tabsInfoMap tabId tabInfo'
        emitted := s.emitted ++ [LogNotification.tabReset tabInfo'] }

/-- Embeds `FilteringLogApi.setPreserveLogState`. -/
def FilteringLogApi.setPreserveLogState (s : FilteringLogState) (enabled : Bool) :
    FilteringLogState :=
  { s with preserveLogEnabled := enabled }

/-- Embeds `FilteringLogApi.onOpenFilteringLogPage`: increments the viewer
counter and turns on the two engine debug flags. -/
def FilteringLogApi.onOpenFilteringLogPage (s : FilteringLogState) :
    FilteringLogState :=
  { s with
    openedFilteringLogsPages := s.openedFilteringLogsPages + 1
    debugScriptlets := true
    collectHitStats := true }

/-- Embeds `FilteringLogApi.onCloseFilteringLogPage`: decrements the viewer
counter (floored at 0); when the counter reaches 0 it purges the filters
cache, clears every tab's events and turns off the debug flags (hit-stat
collection only when the `DisableCollectHits` setting asks for it). -/
def clearTabEvents (info : FilteringLogTabInfo) : FilteringLogTabInfo :=
  { info with filteringEvents := [] }

def FilteringLogApi.onCloseFilteringLogPage (d : FilteringLogDeps)
    (s : FilteringLogState) : FilteringLogState :=
  let pages := max (s.openedFilteringLogsPages - 1) 0
  if pages = 0 then
    { s with
      openedFilteringLogsPages := pages
      filtersCache := []
      tabsInfoMap := s.tabsInfoMap.map (fun p => (p.1, clearTabEvents p.2))
      debugScriptlets := false
      collectHitStats := if d.disableCollectHits then false else s.collectHitStats }
  else { s with openedFilteringLogsPages := pages }

/-- Embeds `FilteringLogApi.onFiltersChanged`: purge (selectively or fully)
only while the log is open. -/
def FilteringLogApi.onFiltersChanged (s : FilteringLogState)
    (filterIds : Option (List Nat)) : FilteringLogState :=
  if FilteringLogApi.isOpen s then
    match filterIds with
    | some ids =>
      { s with filtersCache := ids.foldl (fun c fid => mapDelete c fid) s.filtersCache }
    | none => { s with filtersCache := [] }
  else s

/-- Shared tail of `FilteringLogApi.getRuleText` after the filter data has
been obtained (from the cache or from storage): source-map check, index
resolution, source-text extraction, and the conversion-map branch.  Note the
source guards on `conversionMap[lineStartIndex]` but then returns
`conversionMap[ruleIndex]` as `appliedRuleText`; the embedding reproduces
this literally. -/
def FilteringLogApi.ruleTextOfData (d : FilteringLogDeps)
    (filterData : PreprocessedFilterList) (ruleIndex : Int) : Option RuleText :=
  match filterData.sourceMap with
  | none => none
  | some sm =>
    let lineStartIndex := d.getRuleSourceIndex ruleIndex sm
    if lineStartIndex = -1 then none
    else
      match d.getRuleSourceText lineStartIndex filterData.rawFilterList with
      | none => none
      | some sourceRule =>
        if sourceRule = "" then none
        else
          match filterData.conversionMap with
          | none => some { ruleText := sourceRule, appliedRuleText := none }
          | some cm =>
            match mapGet cm lineStartIndex with
            | some entry =>
              if entry = "" then
                some { ruleText := sourceRule, appliedRuleText := none }
              else
                some { ruleText := sourceRule,
                       appliedRuleText := mapGet cm ruleIndex }
            | none => some { ruleText := sourceRule, appliedRuleText := none }

/-- Embeds `FilteringLogApi.getRuleText`: cache-first lookup; on a miss the
data is fetched via `FiltersStorage.getAllFilterData` and cached when found;
returns the resolved rule text together with the updated state. -/
def FilteringLogApi.getRuleText (d : FilteringLogDeps) (s : FilteringLogState)
    (filterId : Nat) (ruleIndex : Int) :
    Option RuleText × FilteringLogState :=
  match mapGet s.filtersCache filterId with
  | some filterData => (FilteringLogApi.ruleTextOfData d filterData ruleIndex, s)
  | none =>
    match d.getAllFilterData filterId with
    | none => (none, s)
    | some filterData =>
      (FilteringLogApi.ruleTextOfData d filterData ruleIndex,
       { s with filtersCache := mapSet s.filtersCache filterId filterData })

/-- Data of a cookie event passed to `isExistingCookieEvent`. -/
structure CookieEventData where
  tabId : Int
  cookieName : Option String
  cookieValue : Option String
  frameDomain : Option String
deriving DecidableEq

/-- Embeds `FilteringLogApi.isExistingCookieEvent`: for an unknown tab the
optional chaining yields `undefined` and the function returns `false`;
otherwise it scans the tab's events for an identical cookie triple. -/
def FilteringLogApi.isExistingCookieEvent (s : FilteringLogState)
    (ev : CookieEventData) : Bool :=
  match FilteringLogApi.getFilteringInfoByTabId s ev.tabId with
  | none => false
  | some tabInfo =>
    tabInfo.filteringEvents.any fun event =>
      event.frameDomain == ev.frameDomain
        && event.cookieName == ev.cookieName
        && event.cookieValue == ev.cookieValue

/-- JavaScript `Object.keys` applied to a `Map` instance.  A `Map` stores its
entries in an internal slot, not as own enumerable properties, so
`Object.keys` always returns the empty array regardless of the map's
contents.  The source calls this on `this.tabsInfoMap` (a `Map`), so this
definition is the faithful embedding of that call. -/
def objectKeysOfJsMap (m : List (Int × FilteringLogTabInfo)) : List String :=
  match m with
  | _ => []

/-- JavaScript `Number(string)` restricted to what `synchronizeOpenTabs`
needs; it is only ever applied to elements of the empty array produced by
`objectKeysOfJsMap`. -/
def jsStringToNumber (s : String) : Int :=
  (s.toInt?).getD 0

/-- One iteration of the first loop of `synchronizeOpenTabs`: skip a tab
with a falsy id (`!openTab?.id`), otherwise create or update its entry and
splice its id out of `tabIdsToRemove` (`indexOf` + `splice`). -/
def syncTabStep (d : FilteringLogDeps) (acc : FilteringLogState × List Int)
    (openTab : BrowserTab) : FilteringLogState × List Int :=
  match openTab.id with
  | none => acc
  | some tid =>
    if tid = 0 then acc
    else
      let s' :=
        match mapGet acc.1.tabsInfoMap tid with
        | none => FilteringLogApi.createTabInfo d acc.1 openTab false
        | some _ => FilteringLogApi.updateTabInfo d acc.1 openTab
      (s', acc.2.erase tid)

/-- One iteration of the second loop of `synchronizeOpenTabs`: the
`if (tabIdToRemove)` truthiness guard, then `removeTabInfo`. -/
def syncRemoveStep (s' : FilteringLogState) (tid : Int) : FilteringLogState :=
  if tid = 0 then s' else FilteringLogApi.removeTabInfo s' tid

/-- Embeds `FilteringLogApi.synchronizeOpenTabs`.  `tabs` models the result
of `TabsApi.getAll()`.  First pass over the live tabs (create or update),
then the removal pass over the remaining ids of `tabIdsToRemove` — which is
computed by `Object.keys` on the `Map`, hence always empty. -/
def FilteringLogApi.synchronizeOpenTabs (d : FilteringLogDeps)
    (s : FilteringLogState) (tabs : List BrowserTab) : FilteringLogState :=
  let tabIdsToRemove := (objectKeysOfJsMap s.tabsInfoMap).map jsStringToNumber
  let pass := tabs.foldl (syncTabStep d) (s, tabIdsToRemove)
  pass.2.foldl syncRemoveStep pass.1

/-- Reachable states of a `FilteringLogApi` instance: the initial state
followed by any sequence of the embedded public operations. -/
inductive FilteringLogReachable (d : FilteringLogDeps) : FilteringLogState → Prop
  | init : FilteringLogReachable d (initialFilteringLogState d)
  | createTab {s} (tab : BrowserTab) (synth : Bool) :
      FilteringLogReachable d s →
      FilteringLogReachable d (FilteringLogApi.createTabInfo d s tab synth)
  | updateTab {s} (tab : BrowserTab) :
      FilteringLogReachable d s →
      FilteringLogReachable d (FilteringLogApi.updateTabInfo d s tab)
  | removeTab {s} (id : Int) :
      FilteringLogReachable d s →
      FilteringLogReachable d (FilteringLogApi.removeTabInfo s id)
  | addEvent {s} (tabId : Int) (data : FilteringLogEvent) :
      FilteringLogReachable d s →
      FilteringLogReachable d (FilteringLogApi.addEventData s tabId data)
  | updateEvent {s} (tabId : Int) (eventId : String)
      (upd : FilteringLogEvent → FilteringLogEvent) :
      FilteringLogReachable d s →
      FilteringLogReachable d (FilteringLogApi.updateEventData s tabId eventId upd)
  | clearEvents {s} (tabId : Int) (ignorePreserveLog : Bool) :
      FilteringLogReachable d s →
      FilteringLogReachable d (FilteringLogApi.clearEventsByTabId s tabId ignorePreserveLog)
  | setPreserve {s} (enabled : Bool) :
      FilteringLogReachable d s →
      FilteringLogReachable d (FilteringLogApi.setPreserveLogState s enabled)
  | openPage {s} :
      FilteringLogReachable d s →
      FilteringLogReachable d (FilteringLogApi.onOpenFilteringLogPage s)
  | closePage {s} :
      FilteringLogReachable d s →
      FilteringLogReachable d (FilteringLogApi.onCloseFilteringLogPage d s)
  | filtersChanged {s} (filterIds : Option (List Nat)) :
      FilteringLogReachable d s →
      FilteringLogReachable d (FilteringLogApi.onFiltersChanged s filterIds)
  | ruleText {s} (filterId : Nat) (ruleIndex : Int) :
      FilteringLogReachable d s →
      FilteringLogReachable d (FilteringLogApi.getRuleText d s filterId ruleIndex).2
  | syncTabs {s} (tabs : List BrowserTab) :
      FilteringLogReachable d s →
      FilteringLogReachable d (FilteringLogApi.synchronizeOpenTabs d s tabs)

/-- A value held by the hybrid key-value storage, restricted to the shapes
`FiltersStorage` writes and reads: an array of rule strings, or a
string-to-string record (a conversion map). -/
inductive StorageValue where
  | strings (lines : List String)
  | record (entries : List (String × String))
deriving DecidableEq

/-- Modelled from the spec: the hybrid key-value storage backend
(`hybridStorage`, storages module not in this sample) is a string-keyed
key-value store whose `get` reads a key, whose `setMultiple` writes all the
given pairs, and whose `remove` deletes a key.  Here it is a plain
association list; `hybridSetMultiple` folds `mapSet` over the entries in
property order. -/
def hybridSetMultiple (storage : List (String × StorageValue))
    (entries : List (String × StorageValue)) : List (String × StorageValue) :=
  entries.foldl (fun acc p => mapSet acc p.1 p.2) storage

/-- Modelled from the spec: the special user-rules filter id
(`AntiBannerFiltersId.UserFilterId`; the constants module is not in this
sample).  No proof depends on the concrete value. -/
def USER_FILTER_ID : Nat := 0

/-- External collaborator of `FiltersStorage`:
`FilterConverter.convertFilter` (utils module not in this sample) returns
the converted rules and the conversion map. -/
structure FiltersStorageDeps where
  convertFilter : List String → List String × List (String × String)

/-- State of `FiltersStorage`: the persistent hybrid storage plus the static
in-memory conversion-map cache. -/
structure FiltersStorageState where
  hybridStorage : List (String × StorageValue)
  conversionMaps : List (Nat × List (String × String))
deriving DecidableEq

/-- Embeds `FiltersStorage.getFilterKey`: template string
`prefix + filterId + FILTER_LIST_EXTENSION` with the original or the plain
filter prefix. -/
def FiltersStorage.getFilterKey (filterId : Nat) (original : Bool) : String :=
  (if original then "originalfilterrules_" else "filterrules_")
    ++ Nat.repr filterId ++ ".txt"

/-- Embeds `FiltersStorage.getConversionMapKey`. -/
def FiltersStorage.getConversionMapKey (filterId : Nat) : String :=
  "conversionmap_" ++ Nat.repr filterId ++ ".txt"

/-- Embeds `FiltersStorage.prepareFilterForStorage`: converts the rules,
stores the converted list under the filter key and the conversion map under
the conversion-map key, and for the user-rules filter id additionally the
verbatim original lines under the original filter key.  The list order is
the property insertion order of the returned record. -/
def FiltersStorage.prepareFilterForStorage (d : FiltersStorageDeps)
    (filterId : Nat) (filter : List String) : List (String × StorageValue) :=
  let conv := d.convertFilter filter
  [(FiltersStorage.getFilterKey filterId false, StorageValue.strings conv.1),
   (FiltersStorage.getConversionMapKey filterId, StorageValue.record conv.2)]
    ++ (if filterId = USER_FILTER_ID then
          [(FiltersStorage.getFilterKey filterId true, StorageValue.strings filter)]
        else [])

/-- Embeds `FiltersStorage.updateConversionMapIfPossible`: the zod record
schema accepts only a string-to-string record; on any other input the parse
throws, the error is logged and the cache is left unchanged. -/
def FiltersStorage.updateConversionMapIfPossible (filterId : Nat)
    (possibleMap : Option StorageValue)
    (cache : List (Nat × List (String × String))) :
    List (Nat × List (String × String)) :=
  match possibleMap with
  | some (StorageValue.record m) => mapSet cache filterId m
  | _ => cache

/-- Embeds `FiltersStorage.set`: prepares the records, bulk-writes them, then
calls `updateConversionMapIfPossible` with `data.conversionMap` — a property
access on the prepared record, whose keys are the storage keys, so the
lookup is by the literal name "conversionMap". -/
def FiltersStorage.set (d : FiltersStorageDeps) (filterId : Nat)
    (filter : List String) (st : FiltersStorageState) : FiltersStorageState :=
  let data := FiltersStorage.prepareFilterForStorage d filterId filter
  { hybridStorage := hybridSetMultiple st.hybridStorage data
    conversionMaps :=
      FiltersStorage.updateConversionMapIfPossible filterId
        (mapGet data "conversionMap") st.conversionMaps }

/-- Embeds `FiltersStorage.remove`: drops the filter id from the
conversion-map cache, then removes the conversion-map record and the
original-rules record from the hybrid storage. -/
def FiltersStorage.remove (filterId : Nat) (st : FiltersStorageState) :
    FiltersStorageState :=
  { hybridStorage :=
      mapDelete
        (mapDelete st.hybridStorage (FiltersStorage.getConversionMapKey filterId))
        (FiltersStorage.getFilterKey filterId true)
    conversionMaps := mapDelete st.conversionMaps filterId }

/-- Embeds `FiltersStorage.getOriginalUserRules`: reads the original filter
key of the user-rules filter id; the zod schema
`array(string()).optional().default([])` turns an absent record into `[]`,
accepts a string array, and throws on anything else. -/
def FiltersStorage.getOriginalUserRules (storage : List (String × StorageValue)) :
    Except String (List String) :=
  match mapGet storage (FiltersStorage.getFilterKey USER_FILTER_ID true) with
  | none => Except.ok []
  | some (StorageValue.strings l) => Except.ok l
  | some _ => Except.error "ValidationError"

/-- Decimal value of a digit string, used as a left inverse of `Nat.repr`
to establish that distinct filter ids get distinct storage keys. -/
def decimalValue (l : List Char) : Nat :=
  l.foldl (fun acc c => 10 * acc + (c.toNat - 48)) 0

theorem decimalValue_append_singleton (l : List Char) (c : Char) :
    decimalValue (l ++ [c]) = 10 * decimalValue l + (c.toNat - 48) := by
  simp [decimalValue, List.foldl_append]

theorem digitChar_toNat_sub (d : Nat) (h : d < 10) :
    (Nat.digitChar d).toNat - 48 = d := by
  interval_cases d <;> decide

theorem toDigitsCore_append_right (fuel : Nat) :
    ∀ (n : Nat) (ds : List Char),
      Nat.toDigitsCore 10 fuel n ds = Nat.toDigitsCore 10 fuel n [] ++ ds := by
  induction fuel with
  | zero => intro n ds; simp [Nat.toDigitsCore]
  | succ f ih =>
    intro n ds
    simp only [Nat.toDigitsCore]
    by_cases h : n / 10 = 0
    · simp [h]
    · simp only [h, if_false]
      rw [ih (n / 10) (Nat.digitChar (n % 10) :: ds),
        ih (n / 10) [Nat.digitChar (n % 10)], List.append_assoc]
      rfl

theorem decimalValue_toDigitsCore (fuel : Nat) :
    ∀ n : Nat, n < 10 ^ fuel →
      decimalValue (Nat.toDigitsCore 10 fuel n []) = n := by
  induction fuel with
  | zero =>
    intro n h
    interval_cases n
    simp [Nat.toDigitsCore, decimalValue]
  | succ f ih =>
    intro n h
    simp only [Nat.toDigitsCore]
    by_cases hdiv : n / 10 = 0
    · have hn : n < 10 := by omega
      simp only [hdiv, if_true]
      have : decimalValue [Nat.digitChar (n % 10)] = n % 10 := by
        simp [decimalValue, digitChar_toNat_sub (n % 10) (Nat.mod_lt n (by omega))]
      rw [this, Nat.mod_eq_of_lt hn]
    · simp only [hdiv, if_false]
      rw [toDigitsCore_append_right, decimalValue_append_singleton]
      have hlt : n / 10 < 10 ^ f := by
        have h10 : (0 : Nat) < 10 := by omega
        rw [Nat.div_lt_iff_lt_mul h10]
        calc n < 10 ^ (f + 1) := h
        _ = 10 ^ f * 10 := by rw [Nat.pow_succ]
      rw [ih (n / 10) hlt,
        digitChar_toNat_sub (n % 10) (Nat.mod_lt n (by omega))]
      omega

theorem decimalValue_repr (n : Nat) : decimalValue (Nat.repr n).data = n := by
  have hn : n < 10 ^ (n + 1) := by
    calc n < 2 ^ n := Nat.lt_two_pow n
    _ ≤ 10 ^ n := Nat.pow_le_pow_left (by omega) n
    _ ≤ 10 ^ (n + 1) := Nat.pow_le_pow_right (by omega) (Nat.le_succ n)
  simpa [Nat.repr, Nat.toDigits, List.asString] using
    decimalValue_toDigitsCore (n + 1) n hn

theorem natRepr_injective {m n : Nat} (h : Nat.repr m = Nat.repr n) : m = n := by
  have := congrArg (fun s => decimalValue s.data) h
  simpa [decimalValue_repr] using this

theorem reprData_inj {a b : Nat} (h : (Nat.repr a).data = (Nat.repr b).data) :
    a = b := by
  have := congrArg decimalValue h
  simpa [decimalValue_repr] using this

theorem append3_ne_of_head {c₁ c₂ : Char} {l₁ l₂ : List Char} {p₁ p₂ : String}
    (h₁ : p₁.data = c₁ :: l₁) (h₂ : p₂.data = c₂ :: l₂) (hc : c₁ ≠ c₂)
    (x y u v : String) : p₁ ++ x ++ u ≠ p₂ ++ y ++ v := by
  intro h
  have hd := congrArg String.data h
  simp only [String.data_append, h₁, h₂, List.cons_append] at hd
  exact hc (List.head_eq_of_cons_eq hd)

theorem append3_cancel {p : String} {a b : Nat} {e : String}
    (h : p ++ Nat.repr a ++ e = p ++ Nat.repr b ++ e) : a = b := by
  have hd := congrArg String.data h
  simp only [String.data_append] at hd
  exact reprData_inj
    (List.append_cancel_left (List.append_cancel_right hd))

theorem getFilterKey_ne_getConversionMapKey (a b : Nat) (original : Bool) :
    FiltersStorage.getFilterKey a original ≠ FiltersStorage.getConversionMapKey b := by
  cases original with
  | false =>
    show "filterrules_" ++ Nat.repr a ++ ".txt"
        ≠ "conversionmap_" ++ Nat.repr b ++ ".txt"
    exact append3_ne_of_head rfl rfl (by decide) _ _ _ _
  | true =>
    show "originalfilterrules_" ++ Nat.repr a ++ ".txt"
        ≠ "conversionmap_" ++ Nat.repr b ++ ".txt"
    exact append3_ne_of_head rfl rfl (by decide) _ _ _ _

theorem getFilterKey_false_ne_true (a b : Nat) :
    FiltersStorage.getFilterKey a false ≠ FiltersStorage.getFilterKey b true := by
  show "filterrules_" ++ Nat.repr a ++ ".txt"
      ≠ "originalfilterrules_" ++ Nat.repr b ++ ".txt"
  exact append3_ne_of_head rfl rfl (by decide) _ _ _ _

theorem getFilterKey_inj {a b : Nat} (original : Bool)
    (h : FiltersStorage.getFilterKey a original = FiltersStorage.getFilterKey b original) :
    a = b := by
  cases original <;> exact append3_cancel h

theorem getConversionMapKey_inj {a b : Nat}
    (h : FiltersStorage.getConversionMapKey a = FiltersStorage.getConversionMapKey b) :
    a = b :=
  append3_cancel h

/-- Limitation error raised by the engine during a configuration apply.
`find((e) => e instanceof TooManyRulesError)` distinguishes the two
subclasses, so they are the two constructors. -/
inductive LimitationError where
  | tooManyRules (numberOfMaximumRules : Nat) (excludedRulesIds : List Nat)
  | tooManyRegexpRules (numberOfMaximumRules : Nat) (excludedRulesIds : List Nat)
deriving DecidableEq

/-- Discriminates `e instanceof TooManyRulesError`. -/
def LimitationError.isTooManyRules : LimitationError → Bool
  | LimitationError.tooManyRules _ _ => true
  | LimitationError.tooManyRegexpRules _ _ => false

/-- The `numberOfMaximumRules` field of either subclass. -/
def LimitationError.maximumRules : LimitationError → Nat
  | LimitationError.tooManyRules n _ => n
  | LimitationError.tooManyRegexpRules n _ => n

/-- Counters of the compiled dynamic rule set
(`ruleSet.getRulesCount()` / `ruleSet.getRegexpRulesCount()`). -/
structure DeclarativeRuleSetCounts where
  rulesCount : Nat
  regexpRulesCount : Nat
deriving DecidableEq

/-- Dynamic-rules part of an engine configuration result. -/
structure DynamicRulesStatus where
  ruleSet : DeclarativeRuleSetCounts
  limitations : List LimitationError
deriving DecidableEq

/-- Engine configuration result, restricted to the dynamic-rules data that
the embedded accounting reads. -/
structure ConfigurationResult where
  dynamicRules : DynamicRulesStatus
deriving DecidableEq

/-- JavaScript `x?.numberOfMaximumRules || y`: `undefined` (no error found)
and `0` are falsy and fall through to `y`. -/
def jsOrNat : Option Nat → Nat → Nat
  | some n, y => if n = 0 then y else n
  | none, y => y

/-- Embeds `ConfigurationResultService.getRulesLimitExceedErr`. -/
def ConfigurationResultService.getRulesLimitExceedErr
    (result : ConfigurationResult) : Option LimitationError :=
  result.dynamicRules.limitations.find? LimitationError.isTooManyRules

/-- Embeds `ConfigurationResultService.getUserRulesEnabledCount`:
`rulesLimitExceedErr?.numberOfMaximumRules || declarativeRulesCount`. -/
def ConfigurationResultService.getUserRulesEnabledCount
    (result : ConfigurationResult) : Nat :=
  jsOrNat
    ((ConfigurationResultService.getRulesLimitExceedErr result).map
      LimitationError.maximumRules)
    result.dynamicRules.ruleSet.rulesCount

/-- Concrete dependency record used by witnesses. -/
def exampleLogDeps : FilteringLogDeps where
  backgroundTabTitle := "Background"
  isExtensionUrl := fun _ => false
  getAllFilterData := fun _ => none
  getRuleSourceIndex := fun _ _ => -1
  getRuleSourceText := fun _ _ => none
  disableCollectHits := false

/-- Event sequence of a tab, empty for unknown tabs (spec-side reading of
"that tab's event sequence"). -/
def tabEventsOf (s : FilteringLogState) (tabId : Int) : List FilteringLogEvent :=
  match FilteringLogApi.getFilteringInfoByTabId s tabId with
  | some tabInfo => tabInfo.filteringEvents
  | none => []

/-- C8: `isExistingCookieEvent` returns true iff some event already in that
tab's event sequence has identical `frameDomain`, `cookieName` and
`cookieValue`, and it returns false for any tab with an empty event sequence
and for any unknown tab id. -/
theorem claim_C8 (s : FilteringLogState) (ev : CookieEventData) :
    (FilteringLogApi.isExistingCookieEvent s ev = true ↔
      ∃ event ∈ tabEventsOf s ev.tabId,
        event.frameDomain = ev.frameDomain
          ∧ event.cookieName = ev.cookieName
          ∧ event.cookieValue = ev.cookieValue)
    ∧ (FilteringLogApi.getFilteringInfoByTabId s ev.tabId = none →
        FilteringLogApi.isExistingCookieEvent s ev = false)
    ∧ (∀ tabInfo,
        FilteringLogApi.getFilteringInfoByTabId s ev.tabId = some tabInfo →
        tabInfo.filteringEvents = [] →
        FilteringLogApi.isExistingCookieEvent s ev = false) := by
  refine ⟨?_, ?_, ?_⟩
  · cases h : FilteringLogApi.getFilteringInfoByTabId s ev.tabId with
    | none =>
      simp [FilteringLogApi.isExistingCookieEvent, tabEventsOf, h]
    | some tabInfo =>
      simp [FilteringLogApi.isExistingCookieEvent, tabEventsOf, h,
        List.any_eq_true, Bool.and_eq_true, beq_iff_eq, and_assoc]
  · intro h
    simp [FilteringLogApi.isExistingCookieEvent, h]
  · intro tabInfo h hempty
    simp [FilteringLogApi.isExistingCookieEvent, h, hempty]

/-- Witness for C8 at concrete inputs: unknown tab id and empty-tab cases. -/
theorem claim_C8_witness :
    FilteringLogApi.isExistingCookieEvent
      (initialFilteringLogState exampleLogDeps)
      { tabId := 5, cookieName := some "c", cookieValue := some "v",
        frameDomain := some "example.org" } = false
    ∧ FilteringLogApi.isExistingCookieEvent
      (initialFilteringLogState exampleLogDeps)
      { tabId := BACKGROUND_TAB_ID, cookieName := some "c",
        cookieValue := some "v", frameDomain := some "example.org" } = false :=
  ⟨(claim_C8 (initialFilteringLogState exampleLogDeps)
      { tabId := 5, cookieName := some "c", cookieValue := some "v",
        frameDomain := some "example.org" }).2.1 rfl,
   (claim_C8 (initialFilteringLogState exampleLogDeps)
      { tabId := BACKGROUND_TAB_ID, cookieName := some "c",
        cookieValue := some "v", frameDomain := some "example.org" }).2.2
      { tabId := BACKGROUND_TAB_ID, title := "Background",
        isExtensionTab := false, filteringEvents := [] } rfl rfl⟩

theorem eraseIdx_one_head (x : FilteringLogEvent) (xs : List FilteringLogEvent) :
    ((x :: xs).eraseIdx 1).head? = some x := by
  cases xs <;> rfl

theorem eraseIdx_one_length (x y : FilteringLogEvent) (xs : List FilteringLogEvent) :
    ((x :: y :: xs).eraseIdx 1).length = xs.length + 1 := by
  rfl

/-- C2: `addEventData` leaves all state unchanged when the tab is unknown or
the log is closed; otherwise it appends the event, and when the resulting
sequence exceeds 1000 it removes exactly the element at position 1, so a
sequence at most 1000 long stays at most 1000 long and the element at
position 0 of the appended sequence is kept. -/
theorem claim_C2 (s : FilteringLogState) (tabId : Int) (data : FilteringLogEvent) :
    ((FilteringLogApi.getFilteringInfoByTabId s tabId = none
        ∨ FilteringLogApi.isOpen s = false) →
      FilteringLogApi.addEventData s tabId data = s)
    ∧ (∀ tabInfo,
        FilteringLogApi.getFilteringInfoByTabId s tabId = some tabInfo →
        FilteringLogApi.isOpen s = true →
        ∃ tabInfo',
          FilteringLogApi.getFilteringInfoByTabId
              (FilteringLogApi.addEventData s tabId data) tabId = some tabInfo'
          ∧ tabInfo'.filteringEvents =
              (if (tabInfo.filteringEvents ++ [data]).length > 1000 then
                (tabInfo.filteringEvents ++ [data]).eraseIdx 1
              else tabInfo.filteringEvents ++ [data])
          ∧ (tabInfo.filteringEvents.length ≤ 1000 →
              tabInfo'.filteringEvents.length ≤ 1000)
          ∧ tabInfo'.filteringEvents.head?
              = (tabInfo.filteringEvents ++ [data]).head?) := by
  constructor
  · intro h
    cases hM : FilteringLogApi.getFilteringInfoByTabId s tabId with
    | none => simp [FilteringLogApi.addEventData, hM]
    | some tabInfo =>
      rcases h with h | h
      · rw [hM] at h; cases h
      · simp [FilteringLogApi.addEventData, hM, h]
  · intro tabInfo hM hopen
    refine ⟨{ tabInfo with
        filteringEvents :=
          if (tabInfo.filteringEvents ++ [data]).length > REQUESTS_SIZE_PER_TAB
          then (tabInfo.filteringEvents ++ [data]).eraseIdx 1
          else tabInfo.filteringEvents ++ [data] }, ?_, ?_, ?_, ?_⟩
    · simp [FilteringLogApi.addEventData, hM, hopen,
        FilteringLogApi.getFilteringInfoByTabId, mapGet_mapSet_self]
      rw [FilteringLogApi.getFilteringInfoByTabId] at hM
      simp [hM, mapGet_mapSet_self]
    · simp [REQUESTS_SIZE_PER_TAB]
    · intro hle
      simp only [REQUESTS_SIZE_PER_TAB]
      split
      · rename_i hgt
        have hlen : (tabInfo.filteringEvents ++ [data]).length
            = tabInfo.filteringEvents.length + 1 := by simp
        match he : tabInfo.filteringEvents ++ [data], hgt with
        | x :: y :: xs, _ =>
          rw [eraseIdx_one_length]
          have := congrArg List.length he
          simp at this
          omega
        | [x], hgt => simp at hgt
      · rename_i hnotgt
        omega
    · obtain ⟨x, xs, hx⟩ : ∃ x xs, tabInfo.filteringEvents ++ [data] = x :: xs := by
        cases tabInfo.filteringEvents with
        | nil => exact ⟨data, [], rfl⟩
        | cons a l => exact ⟨a, l ++ [data], rfl⟩
      simp only [hx]
      split
      · exact eraseIdx_one_head x xs
      · rfl

/-- Tab entry used by the C2 witness: exactly 1000 events already stored. -/
def tabInfoC2 : FilteringLogTabInfo where
  tabId := 7
  title := "News"
  isExtensionTab := false
  filteringEvents :=
    List.replicate 1000 { eventId := some "e0", frameDomain := none,
                          cookieName := none, cookieValue := none }

/-- Open-log state used by the C2 witness. -/
def stateC2 : FilteringLogState where
  preserveLogEnabled := false
  openedFilteringLogsPages := 1
  tabsInfoMap := [(7, tabInfoC2)]
  filtersCache := []
  debugScriptlets := true
  collectHitStats := true
  emitted := []

/-- Fresh event used by the C2 witness. -/
def eventC2 : FilteringLogEvent where
  eventId := some "e1"
  frameDomain := none
  cookieName := none
  cookieValue := none

/-- Witness for C2: at a tab holding exactly 1000 events, the appended
sequence overflows and position 1 is evicted. -/
theorem claim_C2_witness :
    ∃ tabInfo',
      FilteringLogApi.getFilteringInfoByTabId
          (FilteringLogApi.addEventData stateC2 7 eventC2) 7 = some tabInfo'
      ∧ tabInfo'.filteringEvents =
          (if (tabInfoC2.filteringEvents ++ [eventC2]).length > 1000 then
            (tabInfoC2.filteringEvents ++ [eventC2]).eraseIdx 1
          else tabInfoC2.filteringEvents ++ [eventC2])
      ∧ (tabInfoC2.filteringEvents.length ≤ 1000 →
          tabInfo'.filteringEvents.length ≤ 1000)
      ∧ tabInfo'.filteringEvents.head?
          = (tabInfoC2.filteringEvents ++ [eventC2]).head? :=
  (claim_C2 stateC2 7 eventC2).2 tabInfoC2 rfl rfl


/-- Replays a sequence of page lifecycle calls (`true` = open, `false` =
close) from a given state. -/
def foldPageOps (d : FilteringLogDeps) (s : FilteringLogState)
    (ops : List Bool) : FilteringLogState :=
  ops.foldl
    (fun s' op =>
      if op then FilteringLogApi.onOpenFilteringLogPage s'
      else FilteringLogApi.onCloseFilteringLogPage d s')
    s

/-- Replays a sequence of page lifecycle calls from the initial state. -/
def replayPageOps (d : FilteringLogDeps) (ops : List Bool) : FilteringLogState :=
  foldPageOps d (initialFilteringLogState d) ops

/-- Number of close calls in `ops` that actually decrement the viewer
counter when replayed from counter value `c` (a close at counter 0 is
swallowed by the `Math.max(..., 0)` floor). -/
def effectiveClosesFrom : Int → List Bool → Nat
  | _, [] => 0
  | c, true :: rest => effectiveClosesFrom (c + 1) rest
  | c, false :: rest =>
    (if 0 < c then 1 else 0) + effectiveClosesFrom (max (c - 1) 0) rest

theorem onClose_pages (d : FilteringLogDeps) (s : FilteringLogState) :
    (FilteringLogApi.onCloseFilteringLogPage d s).openedFilteringLogsPages
      = max (s.openedFilteringLogsPages - 1) 0 := by
  rw [FilteringLogApi.onCloseFilteringLogPage]
  split <;> rfl

theorem foldPageOps_pages (d : FilteringLogDeps) (ops : List Bool) :
    ∀ s : FilteringLogState, 0 ≤ s.openedFilteringLogsPages →
      0 ≤ (foldPageOps d s ops).openedFilteringLogsPages
      ∧ (foldPageOps d s ops).openedFilteringLogsPages
          = s.openedFilteringLogsPages + (ops.countP (fun b => b) : Int)
            - (effectiveClosesFrom s.openedFilteringLogsPages ops : Int) := by
  induction ops with
  | nil =>
    intro s h
    exact ⟨h, by simp [foldPageOps, effectiveClosesFrom]⟩
  | cons op rest ih =>
    intro s h
    cases op with
    | true =>
      have e1 : (FilteringLogApi.onOpenFilteringLogPage s).openedFilteringLogsPages
          = s.openedFilteringLogsPages + 1 := rfl
      obtain ⟨ih1, ih2⟩ := ih (FilteringLogApi.onOpenFilteringLogPage s)
        (by rw [e1]; omega)
      have hstep : foldPageOps d s (true :: rest)
          = foldPageOps d (FilteringLogApi.onOpenFilteringLogPage s) rest := rfl
      have hcount : ((true :: rest).countP (fun b => b) : Int)
          = (rest.countP (fun b => b) : Int) + 1 := by
        simp [List.countP_cons]
      have heff : effectiveClosesFrom s.openedFilteringLogsPages (true :: rest)
          = effectiveClosesFrom (s.openedFilteringLogsPages + 1) rest := rfl
      rw [hstep]
      refine ⟨ih1, ?_⟩
      rw [ih2, e1, hcount, heff]
      omega
    | false =>
      have e1 := onClose_pages d s
      obtain ⟨ih1, ih2⟩ := ih (FilteringLogApi.onCloseFilteringLogPage d s)
        (by rw [e1]; omega)
      have hstep : foldPageOps d s (false :: rest)
          = foldPageOps d (FilteringLogApi.onCloseFilteringLogPage d s) rest := rfl
      have hcount : ((false :: rest).countP (fun b => b) : Int)
          = (rest.countP (fun b => b) : Int) := by
        simp [List.countP_cons]
      have heff : effectiveClosesFrom s.openedFilteringLogsPages (false :: rest)
          = (if 0 < s.openedFilteringLogsPages then 1 else 0)
            + effectiveClosesFrom (max (s.openedFilteringLogsPages - 1) 0) rest := rfl
      rw [hstep]
      refine ⟨ih1, ?_⟩
      rw [ih2, e1, hcount, heff]
      by_cases hc : 0 < s.openedFilteringLogsPages
      · rw [if_pos hc]
        have hmax : max (s.openedFilteringLogsPages - 1) 0
            = s.openedFilteringLogsPages - 1 := by omega
        rw [hmax]
        push_cast
        omega
      · rw [if_neg hc]
        have hmax : max (s.openedFilteringLogsPages - 1) 0 = 0 := by omega
        rw [hmax]
        push_cast
        omega

/-- C10: the open-log-viewer page counter, replayed over any sequence of
open/close calls, never becomes negative; `isOpen` holds exactly when the
effective opens outnumber the effective closes; and a close in the
already-closed state leaves `isOpen` false. -/
theorem claim_C10 (d : FilteringLogDeps) (ops : List Bool) :
    0 ≤ (replayPageOps d ops).openedFilteringLogsPages
    ∧ (FilteringLogApi.isOpen (replayPageOps d ops) = true ↔
        effectiveClosesFrom 0 ops < ops.countP (fun b => b))
    ∧ (∀ s : FilteringLogState, FilteringLogApi.isOpen s = false →
        FilteringLogApi.isOpen (FilteringLogApi.onCloseFilteringLogPage d s) = false) := by
  have hinit : (initialFilteringLogState d).openedFilteringLogsPages = 0 := rfl
  have h := foldPageOps_pages d ops (initialFilteringLogState d) (by rw [hinit])
  obtain ⟨h1, h2⟩ := h
  rw [hinit] at h2
  refine ⟨h1, ?_, ?_⟩
  · show (decide (0 < (replayPageOps d ops).openedFilteringLogsPages) = true) ↔ _
    rw [replayPageOps, h2]
    simp only [decide_eq_true_eq]
    omega
  · intro s hclosed
    have hc : ¬ (0 < s.openedFilteringLogsPages) := by
      have : decide (0 < s.openedFilteringLogsPages) = false := hclosed
      exact of_decide_eq_false this
    show decide (0 < (FilteringLogApi.onCloseFilteringLogPage d s).openedFilteringLogsPages) = false
    rw [onClose_pages]
    apply decide_eq_false
    omega

/-- Witness for C10 at the sequence close, open, close, close, open: two
opens, one effective close, so the log ends open; and a close from the
initial (closed) state leaves the log closed. -/
theorem claim_C10_witness :
    (0 ≤ (replayPageOps exampleLogDeps
        [false, true, false, false, true]).openedFilteringLogsPages)
    ∧ (FilteringLogApi.isOpen (replayPageOps exampleLogDeps
          [false, true, false, false, true]) = true ↔
        effectiveClosesFrom 0 [false, true, false, false, true]
          < [false, true, false, false, true].countP (fun b => b))
    ∧ FilteringLogApi.isOpen
        (FilteringLogApi.onCloseFilteringLogPage exampleLogDeps
          (initialFilteringLogState exampleLogDeps)) = false :=
  ⟨(claim_C10 exampleLogDeps [false, true, false, false, true]).1,
   (claim_C10 exampleLogDeps [false, true, false, false, true]).2.1,
   (claim_C10 exampleLogDeps [false, true, false, false, true]).2.2
     (initialFilteringLogState exampleLogDeps) rfl⟩

/-- C5: for the user-rules filter id, `set` followed by
`getOriginalUserRules` returns exactly the stored line sequence verbatim
(whatever the converter did to the compiled form), and when no
original-user-rules record is present `getOriginalUserRules` returns the
empty sequence. -/
theorem claim_C5 (d : FiltersStorageDeps) (st : FiltersStorageState)
    (L : List String) :
    FiltersStorage.getOriginalUserRules
        (FiltersStorage.set d USER_FILTER_ID L st).hybridStorage
      = Except.ok L
    ∧ (mapGet st.hybridStorage (FiltersStorage.getFilterKey USER_FILTER_ID true)
          = none →
        FiltersStorage.getOriginalUserRules st.hybridStorage = Except.ok []) := by
  constructor
  · have hstorage :
        (FiltersStorage.set d USER_FILTER_ID L st).hybridStorage
          = mapSet
              (mapSet
                (mapSet st.hybridStorage
                  (FiltersStorage.getFilterKey USER_FILTER_ID false)
                  (StorageValue.strings (d.convertFilter L).1))
                (FiltersStorage.getConversionMapKey USER_FILTER_ID)
                (StorageValue.record (d.convertFilter L).2))
              (FiltersStorage.getFilterKey USER_FILTER_ID true)
              (StorageValue.strings L) := by
      simp [FiltersStorage.set, FiltersStorage.prepareFilterForStorage,
        hybridSetMultiple]
    rw [FiltersStorage.getOriginalUserRules, hstorage, mapGet_mapSet_self]
  · intro h
    rw [FiltersStorage.getOriginalUserRules, h]

/-- Converter used by witnesses: collapses all lines into one compiled rule,
so the compiled form is not the original sequence. -/
def exampleStorageDeps : FiltersStorageDeps where
  convertFilter := fun lines => (["compiled"], lines.map (fun l => ("compiled", l)))

/-- Witness for C5: a round trip through `set` on an empty storage returns
the two original lines verbatim, and the empty storage itself yields the
empty sequence. -/
theorem claim_C5_witness :
    FiltersStorage.getOriginalUserRules
        (FiltersStorage.set exampleStorageDeps USER_FILTER_ID
          ["example.com##.ad", "example.org##.banner"]
          { hybridStorage := [], conversionMaps := [] }).hybridStorage
      = Except.ok ["example.com##.ad", "example.org##.banner"]
    ∧ FiltersStorage.getOriginalUserRules
        ({ hybridStorage := [], conversionMaps := [] } :
          FiltersStorageState).hybridStorage
      = Except.ok [] :=
  ⟨(claim_C5 exampleStorageDeps { hybridStorage := [], conversionMaps := [] }
      ["example.com##.ad", "example.org##.banner"]).1,
   (claim_C5 exampleStorageDeps { hybridStorage := [], conversionMaps := [] }
      ["example.com##.ad", "example.org##.banner"]).2 rfl⟩

theorem keys_mapDelete_subset {κ α : Type} [DecidableEq κ]
    (l : List (κ × α)) (k a : κ) (h : a ∈ (mapDelete l k).map Prod.fst) :
    a ∈ l.map Prod.fst := by
  induction l with
  | nil => exact h
  | cons hd tl ih =>
    obtain ⟨k', v'⟩ := hd
    by_cases hk : k' = k
    · subst hk
      have hdel : mapDelete ((k', v') :: tl) k' = tl := by
        simp [mapDelete]
      rw [hdel] at h
      simp only [List.map_cons, List.mem_cons]
      exact Or.inr h
    · simp only [mapDelete, if_neg hk, List.map_cons, List.mem_cons] at h ⊢
      rcases h with h | h
      · exact Or.inl h
      · exact Or.inr (ih h)

theorem nodupKeys_mapDelete {κ α : Type} [DecidableEq κ]
    (l : List (κ × α)) (k : κ) (hnd : (l.map Prod.fst).Nodup) :
    ((mapDelete l k).map Prod.fst).Nodup := by
  induction l with
  | nil => simp [mapDelete]
  | cons hd tl ih =>
    obtain ⟨k', v'⟩ := hd
    simp only [List.map_cons, List.nodup_cons] at hnd
    by_cases hk : k' = k
    · subst hk
      simpa [mapDelete] using hnd.2
    · simp only [mapDelete, if_neg hk, List.map_cons, List.nodup_cons]
      exact ⟨fun h => hnd.1 (keys_mapDelete_subset tl k k' h), ih hnd.2⟩

/-- C9: `FiltersStorage.remove` deletes exactly the conversion-map record
and the original-user-rules record of the given filter id from the hybrid
storage; every other key — in particular the compiled filter-rules record
of that id and all three records of every other filter id — is unchanged.
The `Nodup` hypothesis says the storage holds at most one record per key,
which is forced by the key-value storage interface. -/
theorem claim_C9 (filterId : Nat) (st : FiltersStorageState)
    (hnd : (st.hybridStorage.map Prod.fst).Nodup) :
    mapGet (FiltersStorage.remove filterId st).hybridStorage
        (FiltersStorage.getConversionMapKey filterId) = none
    ∧ mapGet (FiltersStorage.remove filterId st).hybridStorage
        (FiltersStorage.getFilterKey filterId true) = none
    ∧ (∀ key : String,
        key ≠ FiltersStorage.getConversionMapKey filterId →
        key ≠ FiltersStorage.getFilterKey filterId true →
        mapGet (FiltersStorage.remove filterId st).hybridStorage key
          = mapGet st.hybridStorage key)
    ∧ mapGet (FiltersStorage.remove filterId st).hybridStorage
        (FiltersStorage.getFilterKey filterId false)
      = mapGet st.hybridStorage (FiltersStorage.getFilterKey filterId false)
    ∧ (∀ other : Nat, other ≠ filterId →
        mapGet (FiltersStorage.remove filterId st).hybridStorage
            (FiltersStorage.getFilterKey other false)
          = mapGet st.hybridStorage (FiltersStorage.getFilterKey other false)
        ∧ mapGet (FiltersStorage.remove filterId st).hybridStorage
            (FiltersStorage.getFilterKey other true)
          = mapGet st.hybridStorage (FiltersStorage.getFilterKey other true)
        ∧ mapGet (FiltersStorage.remove filterId st).hybridStorage
            (FiltersStorage.getConversionMapKey other)
          = mapGet st.hybridStorage (FiltersStorage.getConversionMapKey other)) := by
  have hframe : ∀ key : String,
      key ≠ FiltersStorage.getConversionMapKey filterId →
      key ≠ FiltersStorage.getFilterKey filterId true →
      mapGet (FiltersStorage.remove filterId st).hybridStorage key
        = mapGet st.hybridStorage key := by
    intro key h1 h2
    show mapGet
        (mapDelete
          (mapDelete st.hybridStorage (FiltersStorage.getConversionMapKey filterId))
          (FiltersStorage.getFilterKey filterId true)) key
      = mapGet st.hybridStorage key
    rw [mapGet_mapDelete_ne _ _ _ (fun h => h2 h.symm),
      mapGet_mapDelete_ne _ _ _ (fun h => h1 h.symm)]
  refine ⟨?_, ?_, hframe, ?_, ?_⟩
  · show mapGet
        (mapDelete
          (mapDelete st.hybridStorage (FiltersStorage.getConversionMapKey filterId))
          (FiltersStorage.getFilterKey filterId true))
        (FiltersStorage.getConversionMapKey filterId) = none
    rw [mapGet_mapDelete_ne _ _ _
        (Ne.symm (getFilterKey_ne_getConversionMapKey filterId filterId true)).symm]
    exact mapGet_mapDelete_self st.hybridStorage _ hnd
  · show mapGet
        (mapDelete
          (mapDelete st.hybridStorage (FiltersStorage.getConversionMapKey filterId))
          (FiltersStorage.getFilterKey filterId true))
        (FiltersStorage.getFilterKey filterId true) = none
    exact mapGet_mapDelete_self _ _
      (nodupKeys_mapDelete st.hybridStorage _ hnd)
  · exact hframe _
      (getFilterKey_ne_getConversionMapKey filterId filterId false)
      (getFilterKey_false_ne_true filterId filterId)
  · intro other hne
    refine ⟨hframe _ ?_ ?_, hframe _ ?_ ?_, hframe _ ?_ ?_⟩
    · exact getFilterKey_ne_getConversionMapKey other filterId false
    · exact getFilterKey_false_ne_true other filterId
    · exact getFilterKey_ne_getConversionMapKey other filterId true
    · intro h
      exact hne (getFilterKey_inj true h)
    · intro h
      exact hne (getConversionMapKey_inj h)
    · exact Ne.symm (getFilterKey_ne_getConversionMapKey filterId other true)

/-- Storage used by the C9 witness: all three records of filter 3 plus the
compiled record of filter 4. -/
def stateC9 : FiltersStorageState where
  hybridStorage :=
    [(FiltersStorage.getFilterKey 3 false, StorageValue.strings ["r1"]),
     (FiltersStorage.getConversionMapKey 3, StorageValue.record [("a", "b")]),
     (FiltersStorage.getFilterKey 3 true, StorageValue.strings ["orig"]),
     (FiltersStorage.getFilterKey 4 false, StorageValue.strings ["r2"])]
  conversionMaps := []

/-- Witness for C9: removing filter 3 empties its conversion-map and
original records, while its compiled record and filter 4's compiled record
survive. -/
theorem claim_C9_witness :
    mapGet (FiltersStorage.remove 3 stateC9).hybridStorage
        (FiltersStorage.getConversionMapKey 3) = none
    ∧ mapGet (FiltersStorage.remove 3 stateC9).hybridStorage
        (FiltersStorage.getFilterKey 3 true) = none
    ∧ mapGet (FiltersStorage.remove 3 stateC9).hybridStorage
        (FiltersStorage.getFilterKey 3 false)
      = mapGet stateC9.hybridStorage (FiltersStorage.getFilterKey 3 false)
    ∧ mapGet (FiltersStorage.remove 3 stateC9).hybridStorage
        (FiltersStorage.getFilterKey 4 false)
      = mapGet stateC9.hybridStorage (FiltersStorage.getFilterKey 4 false) :=
  ⟨(claim_C9 3 stateC9 (by decide)).1,
   (claim_C9 3 stateC9 (by decide)).2.1,
   (claim_C9 3 stateC9 (by decide)).2.2.2.1,
   ((claim_C9 3 stateC9 (by decide)).2.2.2.2 4 (by decide)).1⟩

/-- Configuration result refuting C6 as stated: a `TooManyRulesError` whose
`numberOfMaximumRules` is `0`. -/
def configZeroCap : ConfigurationResult where
  dynamicRules :=
    { ruleSet := { rulesCount := 5, regexpRulesCount := 0 }
      limitations := [LimitationError.tooManyRules 0 []] }

/-- C6 counterexample: a `TooManyRulesError` is present (with
`numberOfMaximumRules = 0`), yet `getUserRulesEnabledCount` does not equal
that `numberOfMaximumRules`: the JavaScript `||` treats `0` as falsy and
falls back to the engine-reported count `5`. -/
theorem claim_C6_counterexample :
    ConfigurationResultService.getRulesLimitExceedErr configZeroCap
        = some (LimitationError.tooManyRules 0 [])
    ∧ ConfigurationResultService.getUserRulesEnabledCount configZeroCap = 5
    ∧ ConfigurationResultService.getUserRulesEnabledCount configZeroCap
        ≠ (LimitationError.tooManyRules 0 []).maximumRules := by
  exact ⟨rfl, rfl, by decide⟩

/-- C6 (amended): `getUserRulesEnabledCount` equals the
`numberOfMaximumRules` of the first `TooManyRulesError` among the
dynamic-rules limitation errors when such an error is present and its
`numberOfMaximumRules` is nonzero; otherwise — no such error, or an error
carrying a zero maximum — it equals the engine-reported dynamic rules
count. -/
theorem claim_C6 (result : ConfigurationResult) :
    (∀ e : LimitationError,
      ConfigurationResultService.getRulesLimitExceedErr result = some e →
      e.maximumRules ≠ 0 →
      ConfigurationResultService.getUserRulesEnabledCount result
        = e.maximumRules)
    ∧ (∀ e : LimitationError,
        ConfigurationResultService.getRulesLimitExceedErr result = some e →
        e.maximumRules = 0 →
        ConfigurationResultService.getUserRulesEnabledCount result
          = result.dynamicRules.ruleSet.rulesCount)
    ∧ (ConfigurationResultService.getRulesLimitExceedErr result = none →
        ConfigurationResultService.getUserRulesEnabledCount result
          = result.dynamicRules.ruleSet.rulesCount) := by
  refine ⟨?_, ?_, ?_⟩
  · intro e he hne
    rw [ConfigurationResultService.getUserRulesEnabledCount, he]
    simp [jsOrNat, hne]
  · intro e he hzero
    rw [ConfigurationResultService.getUserRulesEnabledCount, he]
    simp [jsOrNat, hzero]
  · intro hnone
    rw [ConfigurationResultService.getUserRulesEnabledCount, hnone]
    rfl

/-- Configuration result of the spec scenario: cap 30000, compiled count
32000. -/
def configCap30000 : ConfigurationResult where
  dynamicRules :=
    { ruleSet := { rulesCount := 32000, regexpRulesCount := 0 }
      limitations := [LimitationError.tooManyRules 30000 [1, 2]] }

/-- Witness for C6 at the spec scenario: `numberOfMaximumRules = 30000` and
an engine-reported count of 32000 yield `userRulesEnabledCount = 30000`. -/
theorem claim_C6_witness :
    ConfigurationResultService.getUserRulesEnabledCount configCap30000
      = (LimitationError.tooManyRules 30000 [1, 2]).maximumRules :=
  (claim_C6 configCap30000).1 (LimitationError.tooManyRules 30000 [1, 2])
    rfl (by decide)

/-- Rule-text resolution straight from the Filter Store, bypassing any
cache: the result `getRuleText` must produce when nothing is cached. -/
def storeRuleText (d : FilteringLogDeps) (filterId : Nat) (ruleIndex : Int) :
    Option RuleText :=
  match d.getAllFilterData filterId with
  | none => none
  | some filterData => FilteringLogApi.ruleTextOfData d filterData ruleIndex

theorem getRuleText_empty_cache (d : FilteringLogDeps) (s : FilteringLogState)
    (filterId : Nat) (ruleIndex : Int) (h : s.filtersCache = []) :
    (FilteringLogApi.getRuleText d s filterId ruleIndex).1
      = storeRuleText d filterId ruleIndex := by
  rw [FilteringLogApi.getRuleText, h, storeRuleText]
  cases hga : d.getAllFilterData filterId <;> simp [mapGet, hga]

/-- C3: when `onCloseFilteringLogPage` brings the viewer count to zero,
every tracked tab's event sequence becomes empty and the rule-text cache
becomes empty, and a `getRuleText` issued after reopening resolves from the
Filter Store (its result is exactly the cache-free store lookup); while the
count stays above zero, neither the tab events nor the cache are touched. -/
theorem claim_C3 (d : FilteringLogDeps) (s : FilteringLogState) :
    ((FilteringLogApi.onCloseFilteringLogPage d s).openedFilteringLogsPages = 0 →
      (∀ p ∈ (FilteringLogApi.onCloseFilteringLogPage d s).tabsInfoMap,
          p.2.filteringEvents = ([] : List FilteringLogEvent))
      ∧ (FilteringLogApi.onCloseFilteringLogPage d s).filtersCache = []
      ∧ (∀ (filterId : Nat) (ruleIndex : Int),
          (FilteringLogApi.getRuleText d
            (FilteringLogApi.onOpenFilteringLogPage
              (FilteringLogApi.onCloseFilteringLogPage d s)) filterId ruleIndex).1
            = storeRuleText d filterId ruleIndex))
    ∧ (0 < (FilteringLogApi.onCloseFilteringLogPage d s).openedFilteringLogsPages →
        (FilteringLogApi.onCloseFilteringLogPage d s).tabsInfoMap = s.tabsInfoMap
        ∧ (FilteringLogApi.onCloseFilteringLogPage d s).filtersCache
            = s.filtersCache) := by
  by_cases hp : max (s.openedFilteringLogsPages - 1) 0 = 0
  · have hstate : FilteringLogApi.onCloseFilteringLogPage d s
        = { s with
            openedFilteringLogsPages := max (s.openedFilteringLogsPages - 1) 0
            filtersCache := []
            tabsInfoMap := s.tabsInfoMap.map (fun p => (p.1, clearTabEvents p.2))
            debugScriptlets := false
            collectHitStats :=
              if d.disableCollectHits then false else s.collectHitStats } := by
      rw [FilteringLogApi.onCloseFilteringLogPage]
      rw [if_pos hp]
    constructor
    · intro _
      refine ⟨?_, ?_, ?_⟩
      · intro p hmem
        rw [hstate] at hmem
        simp only [List.mem_map] at hmem
        obtain ⟨q, _, hq⟩ := hmem
        rw [← hq]
        rfl
      · rw [hstate]
      · intro filterId ruleIndex
        apply getRuleText_empty_cache
        rw [FilteringLogApi.onOpenFilteringLogPage, hstate]
    · intro hpos
      rw [hstate] at hpos
      simp only [hp] at hpos
      exact absurd hpos (by omega)
  · have hstate : FilteringLogApi.onCloseFilteringLogPage d s
        = { s with
            openedFilteringLogsPages := max (s.openedFilteringLogsPages - 1) 0 } := by
      rw [FilteringLogApi.onCloseFilteringLogPage]
      rw [if_neg hp]
    constructor
    · intro h0
      rw [hstate] at h0
      exact absurd h0 hp
    · intro _
      rw [hstate]
      exact ⟨rfl, rfl⟩

/-- Stale cache entry used by the C3 witness. -/
def cachedDataC3 : PreprocessedFilterList where
  rawFilterList := "stale"
  filterList := []
  conversionMap := none
  sourceMap := none

/-- Tab entry used by the C3 witness. -/
def tabInfoC3 : FilteringLogTabInfo where
  tabId := 3
  title := "Tab"
  isExtensionTab := false
  filteringEvents :=
    [{ eventId := some "x", frameDomain := none, cookieName := none,
       cookieValue := none }]

/-- Open single-viewer state with one cached filter, used by the C3
witness. -/
def stateC3 : FilteringLogState where
  preserveLogEnabled := false
  openedFilteringLogsPages := 1
  tabsInfoMap := [(3, tabInfoC3)]
  filtersCache := [(1, cachedDataC3)]
  debugScriptlets := true
  collectHitStats := true
  emitted := []

/-- Witness for C3: closing the single open viewer empties the cache, and a
rule-text lookup after reopening equals the cache-free store lookup. -/
theorem claim_C3_witness :
    (FilteringLogApi.onCloseFilteringLogPage exampleLogDeps stateC3).filtersCache
        = []
    ∧ (FilteringLogApi.getRuleText exampleLogDeps
        (FilteringLogApi.onOpenFilteringLogPage
          (FilteringLogApi.onCloseFilteringLogPage exampleLogDeps stateC3)) 1 0).1
      = storeRuleText exampleLogDeps 1 0 :=
  ⟨((claim_C3 exampleLogDeps stateC3).1 (by decide)).2.1,
   ((claim_C3 exampleLogDeps stateC3).1 (by decide)).2.2 1 0⟩

theorem bg_mem_createTabInfo (d : FilteringLogDeps) (s : FilteringLogState)
    (tab : BrowserTab) (synth : Bool)
    (h : (mapGet s.tabsInfoMap BACKGROUND_TAB_ID).isSome = true) :
    (mapGet (FilteringLogApi.createTabInfo d s tab synth).tabsInfoMap
      BACKGROUND_TAB_ID).isSome = true := by
  unfold FilteringLogApi.createTabInfo
  split
  · split
    · exact h
    · split
      · exact h
      · exact mapGet_isSome_mapSet _ _ _ _ h
  · exact h

theorem bg_mem_updateTabInfo (d : FilteringLogDeps) (s : FilteringLogState)
    (tab : BrowserTab)
    (h : (mapGet s.tabsInfoMap BACKGROUND_TAB_ID).isSome = true) :
    (mapGet (FilteringLogApi.updateTabInfo d s tab).tabsInfoMap
      BACKGROUND_TAB_ID).isSome = true := by
  unfold FilteringLogApi.updateTabInfo
  split
  · split
    · exact h
    · split
      · exact h
      · split
        · exact bg_mem_createTabInfo d s tab false h
        · exact mapGet_isSome_mapSet _ _ _ _ h
  · exact h

theorem bg_mem_removeTabInfo (s : FilteringLogState) (id : Int)
    (h : (mapGet s.tabsInfoMap BACKGROUND_TAB_ID).isSome = true) :
    (mapGet (FilteringLogApi.removeTabInfo s id).tabsInfoMap
      BACKGROUND_TAB_ID).isSome = true := by
  unfold FilteringLogApi.removeTabInfo
  split
  · exact h
  · rename_i hne
    show (mapGet (mapDelete s.tabsInfoMap id) BACKGROUND_TAB_ID).isSome = true
    rw [mapGet_mapDelete_ne _ _ _ hne]
    exact h

theorem bg_mem_addEventData (s : FilteringLogState) (tabId : Int)
    (data : FilteringLogEvent)
    (h : (mapGet s.tabsInfoMap BACKGROUND_TAB_ID).isSome = true) :
    (mapGet (FilteringLogApi.addEventData s tabId data).tabsInfoMap
      BACKGROUND_TAB_ID).isSome = true := by
  unfold FilteringLogApi.addEventData
  split
  · exact h
  · split
    · exact h
    · exact mapGet_isSome_mapSet _ _ _ _ h

theorem bg_mem_updateEventData (s : FilteringLogState) (tabId : Int)
    (eventId : String) (upd : FilteringLogEvent → FilteringLogEvent)
    (h : (mapGet s.tabsInfoMap BACKGROUND_TAB_ID).isSome = true) :
    (mapGet (FilteringLogApi.updateEventData s tabId eventId upd).tabsInfoMap
      BACKGROUND_TAB_ID).isSome = true := by
  unfold FilteringLogApi.updateEventData
  split
  · exact h
  · split
    · exact h
    · split
      · exact h
      · exact mapGet_isSome_mapSet _ _ _ _ h

theorem bg_mem_clearEventsByTabId (s : FilteringLogState) (tabId : Int)
    (ignorePreserveLog : Bool)
    (h : (mapGet s.tabsInfoMap BACKGROUND_TAB_ID).isSome = true) :
    (mapGet (FilteringLogApi.clearEventsByTabId s tabId
        ignorePreserveLog).tabsInfoMap BACKGROUND_TAB_ID).isSome = true := by
  unfold FilteringLogApi.clearEventsByTabId
  dsimp only
  repeat' split
  all_goals
    first
      | exact h
      | exact mapGet_isSome_mapSet _ _ _ _ h

theorem bg_mem_onClose (d : FilteringLogDeps) (s : FilteringLogState)
    (h : (mapGet s.tabsInfoMap BACKGROUND_TAB_ID).isSome = true) :
    (mapGet (FilteringLogApi.onCloseFilteringLogPage d s).tabsInfoMap
      BACKGROUND_TAB_ID).isSome = true := by
  unfold FilteringLogApi.onCloseFilteringLogPage
  dsimp only
  split
  · show (mapGet (s.tabsInfoMap.map (fun p => (p.1, clearTabEvents p.2)))
        BACKGROUND_TAB_ID).isSome = true
    rw [mapGet_map_values]
    simpa using h
  · exact h

theorem bg_mem_onFiltersChanged (s : FilteringLogState)
    (filterIds : Option (List Nat))
    (h : (mapGet s.tabsInfoMap BACKGROUND_TAB_ID).isSome = true) :
    (mapGet (FilteringLogApi.onFiltersChanged s filterIds).tabsInfoMap
      BACKGROUND_TAB_ID).isSome = true := by
  unfold FilteringLogApi.onFiltersChanged
  split
  · split <;> exact h
  · exact h

theorem getRuleText_tabsInfoMap (d : FilteringLogDeps) (s : FilteringLogState)
    (filterId : Nat) (ruleIndex : Int) :
    ((FilteringLogApi.getRuleText d s filterId ruleIndex).2).tabsInfoMap
      = s.tabsInfoMap := by
  unfold FilteringLogApi.getRuleText
  split
  · rfl
  · split <;> rfl

theorem bg_mem_syncTabStep (d : FilteringLogDeps)
    (acc : FilteringLogState × List Int) (openTab : BrowserTab)
    (h : (mapGet acc.1.tabsInfoMap BACKGROUND_TAB_ID).isSome = true) :
    (mapGet (syncTabStep d acc openTab).1.tabsInfoMap
      BACKGROUND_TAB_ID).isSome = true := by
  unfold syncTabStep
  split
  · exact h
  · split
    · exact h
    · split
      · exact bg_mem_createTabInfo d acc.1 openTab false h
      · exact bg_mem_updateTabInfo d acc.1 openTab h

theorem bg_mem_syncFold (d : FilteringLogDeps) (tabs : List BrowserTab) :
    ∀ acc : FilteringLogState × List Int,
      (mapGet acc.1.tabsInfoMap BACKGROUND_TAB_ID).isSome = true →
      (mapGet (tabs.foldl (syncTabStep d) acc).1.tabsInfoMap
        BACKGROUND_TAB_ID).isSome = true := by
  induction tabs with
  | nil => intro acc h; exact h
  | cons t rest ih =>
    intro acc h
    exact ih (syncTabStep d acc t) (bg_mem_syncTabStep d acc t h)

theorem bg_mem_removeFold (rem : List Int) :
    ∀ s : FilteringLogState,
      (mapGet s.tabsInfoMap BACKGROUND_TAB_ID).isSome = true →
      (mapGet (rem.foldl syncRemoveStep s).tabsInfoMap
        BACKGROUND_TAB_ID).isSome = true := by
  induction rem with
  | nil => intro s h; exact h
  | cons tid rest ih =>
    intro s h
    refine ih (syncRemoveStep s tid) ?_
    unfold syncRemoveStep
    split
    · exact h
    · exact bg_mem_removeTabInfo s tid h

theorem bg_mem_sync (d : FilteringLogDeps) (s : FilteringLogState)
    (tabs : List BrowserTab)
    (h : (mapGet s.tabsInfoMap BACKGROUND_TAB_ID).isSome = true) :
    (mapGet (FilteringLogApi.synchronizeOpenTabs d s tabs).tabsInfoMap
      BACKGROUND_TAB_ID).isSome = true := by
  unfold FilteringLogApi.synchronizeOpenTabs
  exact bg_mem_removeFold _ _ (bg_mem_syncFold d tabs _ h)

theorem reachable_hasBg (d : FilteringLogDeps) (s : FilteringLogState)
    (h : FilteringLogReachable d s) :
    (mapGet s.tabsInfoMap BACKGROUND_TAB_ID).isSome = true := by
  induction h with
  | init => rfl
  | createTab tab synth _ ih => exact bg_mem_createTabInfo _ _ tab synth ih
  | updateTab tab _ ih => exact bg_mem_updateTabInfo _ _ tab ih
  | removeTab id _ ih => exact bg_mem_removeTabInfo _ id ih
  | addEvent tabId data _ ih => exact bg_mem_addEventData _ tabId data ih
  | updateEvent tabId eventId upd _ ih =>
    exact bg_mem_updateEventData _ tabId eventId upd ih
  | clearEvents tabId ign _ ih => exact bg_mem_clearEventsByTabId _ tabId ign ih
  | setPreserve enabled _ ih => exact ih
  | openPage _ ih => exact ih
  | closePage _ ih => exact bg_mem_onClose _ _ ih
  | filtersChanged filterIds _ ih => exact bg_mem_onFiltersChanged _ filterIds ih
  | ruleText filterId ruleIndex _ ih => 
    rw [getRuleText_tabsInfoMap]
    exact ih
  | syncTabs tabs _ ih => exact bg_mem_sync _ _ tabs ih

/-- C7: every reachable filtering-log state keeps an entry for the reserved
background tab id, and `createTabInfo`, `updateTabInfo` and `removeTabInfo`
invoked with the background tab id leave the whole state — including the
emitted-notifications log — unchanged. -/
theorem claim_C7 (d : FilteringLogDeps) :
    (∀ s : FilteringLogState, FilteringLogReachable d s →
        (mapGet s.tabsInfoMap BACKGROUND_TAB_ID).isSome = true)
    ∧ (∀ (s : FilteringLogState) (tab : BrowserTab) (synth : Bool),
        tab.id = some BACKGROUND_TAB_ID →
        FilteringLogApi.createTabInfo d s tab synth = s)
    ∧ (∀ (s : FilteringLogState) (tab : BrowserTab),
        tab.id = some BACKGROUND_TAB_ID →
        FilteringLogApi.updateTabInfo d s tab = s)
    ∧ (∀ s : FilteringLogState,
        FilteringLogApi.removeTabInfo s BACKGROUND_TAB_ID = s) := by
  refine ⟨reachable_hasBg d, ?_, ?_, ?_⟩
  · intro s tab synth htab
    obtain ⟨oid, otitle, ourl⟩ := tab
    simp only at htab
    subst htab
    unfold FilteringLogApi.createTabInfo
    cases otitle <;> cases ourl <;> try rfl
    dsimp only
    split
    · rfl
    · split
      · rfl
      · rename_i hguard
        exact absurd (Or.inl rfl) hguard
  · intro s tab htab
    obtain ⟨oid, otitle, ourl⟩ := tab
    simp only at htab
    subst htab
    unfold FilteringLogApi.updateTabInfo
    cases otitle <;> cases ourl <;> try rfl
    dsimp only
    split
    · rfl
    · split
      · rfl
      · rename_i hguard
        exact absurd rfl hguard
  · intro s
    unfold FilteringLogApi.removeTabInfo
    rw [if_pos rfl]

/-- Browser tab carrying the background tab id, used by the C7 witness. -/
def backgroundBrowserTab : BrowserTab where
  id := some BACKGROUND_TAB_ID
  title := some "Some page"
  url := some "https://site.example/page"

/-- Witness for C7: the initial state holds the background entry, and the
three lifecycle calls at the background tab id leave the initial state
untouched. -/
theorem claim_C7_witness :
    (mapGet (initialFilteringLogState exampleLogDeps).tabsInfoMap
        BACKGROUND_TAB_ID).isSome = true
    ∧ FilteringLogApi.createTabInfo exampleLogDeps
        (initialFilteringLogState exampleLogDeps) backgroundBrowserTab false
      = initialFilteringLogState exampleLogDeps
    ∧ FilteringLogApi.updateTabInfo exampleLogDeps
        (initialFilteringLogState exampleLogDeps) backgroundBrowserTab
      = initialFilteringLogState exampleLogDeps
    ∧ FilteringLogApi.removeTabInfo (initialFilteringLogState exampleLogDeps)
        BACKGROUND_TAB_ID
      = initialFilteringLogState exampleLogDeps :=
  ⟨(claim_C7 exampleLogDeps).1 (initialFilteringLogState exampleLogDeps)
      FilteringLogReachable.init,
   (claim_C7 exampleLogDeps).2.1 (initialFilteringLogState exampleLogDeps)
      backgroundBrowserTab false rfl,
   (claim_C7 exampleLogDeps).2.2.1 (initialFilteringLogState exampleLogDeps)
      backgroundBrowserTab rfl,
   (claim_C7 exampleLogDeps).2.2.2 (initialFilteringLogState exampleLogDeps)⟩

/-- Stored filter data exhibiting the C1 divergence: the source map resolves
rule byte-offset 4 to line start offset 10, and the conversion map has its
entry at the resolved offset 10 (conversion maps are keyed by line start
offset), with no entry at the raw rule index 4. -/
def filterDataC1 : PreprocessedFilterList where
  rawFilterList := "##orig"
  filterList := [[1, 2]]
  conversionMap := some [(10, "applied-text")]
  sourceMap := some [(4, 10)]

/-- Dependencies for the C1 evaluation: the store holds `filterDataC1` under
filter id 1, the index resolver reads the source map, and the source-text
resolver returns the rule at line start offset 10. -/
def depsC1 : FilteringLogDeps where
  backgroundTabTitle := "Background"
  isExtensionUrl := fun _ => false
  getAllFilterData := fun filterId => if filterId = 1 then some filterDataC1 else none
  getRuleSourceIndex := fun ruleIndex sm =>
    match mapGet sm ruleIndex with
    | some offset => offset
    | none => -1
  getRuleSourceText := fun idx _ => if idx = 10 then some "##orig" else none
  disableCollectHits := false

/-- C1, evaluated at the failing input: the index resolves to offset 10, the
conversion map has the entry "applied-text" at that resolved offset — so the
claim (and the guard the code itself takes) requires
`appliedRuleText = "applied-text"` — yet `getRuleText` returns the record
with no applied text, because it reads `conversionMap[ruleIndex]`
(`conversionMap[4]`, absent) instead of `conversionMap[lineStartIndex]`. -/
theorem claim_C1 :
    (FilteringLogApi.getRuleText depsC1 (initialFilteringLogState depsC1) 1 4).1
      = some { ruleText := "##orig", appliedRuleText := none }
    ∧ depsC1.getRuleSourceIndex 4 [(4, 10)] = 10
    ∧ mapGet [((10 : Int), "applied-text")] 10 = some "applied-text" := by
  exact ⟨rfl, rfl, rfl⟩

/-- Background entry of the C4 evaluation states. -/
def bgInfoC4 : FilteringLogTabInfo where
  tabId := BACKGROUND_TAB_ID
  title := "Background"
  isExtensionTab := false
  filteringEvents := []

/-- Tracked entry for tab 7, which is no longer open in the browser. -/
def staleInfoC4 : FilteringLogTabInfo where
  tabId := 7
  title := "Stale tab"
  isExtensionTab := false
  filteringEvents := []

/-- State tracking the background entry and the stale tab 7. -/
def stateC4 : FilteringLogState where
  preserveLogEnabled := false
  openedFilteringLogsPages := 1
  tabsInfoMap := [(BACKGROUND_TAB_ID, bgInfoC4), (7, staleInfoC4)]
  filtersCache := []
  debugScriptlets := false
  collectHitStats := false
  emitted := []

/-- Live browser tab list containing only tab 9. -/
def liveTabsC4 : List BrowserTab :=
  [{ id := some 9, title := some "Live tab", url := some "https://site.example" }]

/-- C4, evaluated at the failing input: `Object.keys` on the tabs `Map`
yields the empty array, so `tabIdsToRemove` is empty and the entry of the
closed tab 7 survives `synchronizeOpenTabs` (the claim requires it to be
removed); the missing live tab 9 is created as claimed. -/
theorem claim_C4 :
    objectKeysOfJsMap stateC4.tabsInfoMap = []
    ∧ mapGet (FilteringLogApi.synchronizeOpenTabs exampleLogDeps stateC4
        liveTabsC4).tabsInfoMap 7 = some staleInfoC4
    ∧ (mapGet (FilteringLogApi.synchronizeOpenTabs exampleLogDeps stateC4
        liveTabsC4).tabsInfoMap 9).isSome = true := by
  exact ⟨rfl, rfl, rfl⟩
